import Mathlib

/-!
Shallow embedding of the WebOS touch-input driver of PCSX_Rearmed-WebOS:
the touch-zone dispatch / button-state engine in
`src/frontend/in_webos_touch.c` (the TapKey build) and the four
menu event-delivery policy variants in `src/menu_test_variants/`
(Debounce, Queue, SyncPoll, KeyInject).

Each C module's static state becomes a `State` structure, each entry point
a pure function on it.  Machine integers: coordinates and zone keys are
`Int` (C `int`), bitmasks are `Nat` (the code only ORs small non-negative
bit values into them), `SDL_GetTicks()` timestamps are `Nat` with the
`Uint32` subtraction modelled explicitly by `sub32`.
-/

namespace WebosTouch

/-- `touch_zone_t` from the C sources: a rectangle in the fixed 1024x768
logical space bound to a key code (a `DKEY_*` value, a negative
`MENU_KEY_*` / diagonal marker, or `-1` for the "open menu" zone). -/
structure touch_zone_t where
  x : Int
  y : Int
  w : Int
  h : Int
  key : Int
  label : String
deriving DecidableEq

/- Button key constants.  The `DKEY_*` values come from the emulator's
`plugin_lib.h` enum (DKEY_SELECT = 0 .. DKEY_SQUARE = 15) and the `PBTN_*`
values from `libpicofe/input.h` (PBTN_UP = 1 << 0 ..); both headers are
external to the translated sources, only the values below are used. -/
def DKEY_SELECT : Int := 0
def DKEY_START : Int := 3
def DKEY_UP : Int := 4
def DKEY_RIGHT : Int := 5
def DKEY_DOWN : Int := 6
def DKEY_LEFT : Int := 7
def DKEY_L2 : Int := 8
def DKEY_R2 : Int := 9
def DKEY_L1 : Int := 10
def DKEY_R1 : Int := 11
def DKEY_TRIANGLE : Int := 12
def DKEY_CIRCLE : Int := 13
def DKEY_CROSS : Int := 14
def DKEY_SQUARE : Int := 15

def PBTN_UP : Nat := 1
def PBTN_DOWN : Nat := 2
def PBTN_LEFT : Nat := 4
def PBTN_RIGHT : Nat := 8
def PBTN_MOK : Nat := 16
def PBTN_MBACK : Nat := 32

/- SDL 1.2 keysym values used by the key-injecting variants. -/
def SDLK_UNKNOWN : Int := 0
def SDLK_RETURN : Int := 13
def SDLK_ESCAPE : Int := 27
def SDLK_UP : Int := 273
def SDLK_DOWN : Int := 274
def SDLK_RIGHT : Int := 275
def SDLK_LEFT : Int := 276

def TOUCH_SCREEN_W : Int := 1024
def TOUCH_SCREEN_H : Int := 768
def MAX_FINGERS : Nat := 10
def DEBOUNCE_MS : Nat := 250
def EVENT_QUEUE_SIZE : Nat := 16
def ACTIVE_DURATION_MS : Nat := 120
def RESOLUTION_STABLE_THRESHOLD : Nat := 5

/-- `Uint32` subtraction `now - last` as computed by the C code, for
arguments below `2^32` (SDL tick values). -/
def sub32 (now last : Nat) : Nat :=
  (now + 4294967296 - last % 4294967296) % 4294967296

/-- The containment test from the `find_zone` loop body:
`scaled_x >= zone->x && scaled_x < zone->x + zone->w && scaled_y >= zone->y
&& scaled_y < zone->y + zone->h` (left/top inclusive, right/bottom
exclusive). -/
def zone_contains (z : touch_zone_t) (px py : Int) : Bool :=
  z.x ≤ px && px < z.x + z.w && z.y ≤ py && py < z.y + z.h

/-- The `find_zone` search loop: index of the first zone in table order
containing the point, `-1` if none. -/
def find_zone_list (zones : List touch_zone_t) (px py : Int) : Int :=
  match zones with
  | [] => -1
  | z :: rest =>
    if zone_contains z px py then 0
    else
      let r := find_zone_list rest px py
      if r = -1 then -1 else r + 1

/-- `find_zone`'s device-to-logical scaling followed by the table search:
`scaled_x = (x * TOUCH_SCREEN_W) / current_screen_w` and likewise for `y`
(`Int.tdiv` is C's truncating signed division). -/
def find_zone_scaled (zones : List touch_zone_t) (screen_w screen_h x y : Int) : Int :=
  find_zone_list zones (Int.tdiv (x * TOUCH_SCREEN_W) screen_w) (Int.tdiv (y * TOUCH_SCREEN_H) screen_h)

/-- Abstract pointer event stream: the three SDL event types the driver
handles (`which` is the finger / pointer id; `button1` models
`event->motion.state & SDL_BUTTON(1)`), plus any other event type. -/
inductive TouchEv where
  | down (which : Nat) (x y : Int)
  | btnup (which : Nat)
  | motion (which : Nat) (x y : Int) (button1 : Bool)
  | other
deriving DecidableEq

/-- A trace step: deliver a pointer event, or poll `get_menu_buttons` at a
given `SDL_GetTicks()` value. -/
inductive TraceAct where
  | ev (e : TouchEv)
  | poll (t : Nat)
deriving DecidableEq

/-!
## TapKey build (`src/frontend/in_webos_touch.c`)

Menu mode delivers taps by immediately injecting a complete
`KEY_DOWN`/`KEY_UP` keystroke pair; game mode tracks press/release state.
Injected SDL keyboard events are modelled as an output list of
`(keysym, pressed)` pairs.
-/
namespace TapKey

def MENU_KEY_UP : Int := -10
def MENU_KEY_DOWN : Int := -11
def MENU_KEY_LEFT : Int := -12
def MENU_KEY_RIGHT : Int := -13
def MENU_KEY_MOK : Int := -14
def MENU_KEY_MBACK : Int := -15

def DKEY_UP_RIGHT : Int := -20
def DKEY_UP_LEFT : Int := -21
def DKEY_DOWN_RIGHT : Int := -22
def DKEY_DOWN_LEFT : Int := -23

def game_touch_zones : List touch_zone_t := [
  ⟨80, 525, 80, 80, DKEY_UP, "UP"⟩,
  ⟨80, 685, 80, 80, DKEY_DOWN, "DN"⟩,
  ⟨0, 605, 80, 80, DKEY_LEFT, "LT"⟩,
  ⟨160, 605, 80, 80, DKEY_RIGHT, "RT"⟩,
  ⟨160, 525, 80, 80, DKEY_UP_RIGHT, ""⟩,
  ⟨0, 525, 80, 80, DKEY_UP_LEFT, ""⟩,
  ⟨160, 685, 80, 80, DKEY_DOWN_RIGHT, ""⟩,
  ⟨0, 685, 80, 80, DKEY_DOWN_LEFT, ""⟩,
  ⟨864, 525, 80, 80, DKEY_TRIANGLE, "/\\"⟩,
  ⟨864, 685, 80, 80, DKEY_CROSS, "X"⟩,
  ⟨784, 605, 80, 80, DKEY_SQUARE, "[]"⟩,
  ⟨944, 605, 80, 80, DKEY_CIRCLE, "O"⟩,
  ⟨0, 338, 120, 60, DKEY_L1, "L1"⟩,
  ⟨0, 398, 120, 60, DKEY_L2, "L2"⟩,
  ⟨904, 338, 120, 60, DKEY_R1, "R1"⟩,
  ⟨904, 398, 120, 60, DKEY_R2, "R2"⟩,
  ⟨400, 708, 100, 60, DKEY_SELECT, "SEL"⟩,
  ⟨524, 708, 100, 60, DKEY_START, "STA"⟩,
  ⟨462, 0, 100, 50, -1, "MENU"⟩]

def menu_touch_zones : List touch_zone_t := [
  ⟨100, 510, 100, 80, MENU_KEY_UP, "UP"⟩,
  ⟨100, 678, 100, 80, MENU_KEY_DOWN, "DOWN"⟩,
  ⟨10, 594, 100, 80, MENU_KEY_LEFT, "LEFT"⟩,
  ⟨190, 594, 100, 80, MENU_KEY_RIGHT, "RIGHT"⟩,
  ⟨734, 594, 120, 80, MENU_KEY_MBACK, "BACK"⟩,
  ⟨874, 594, 120, 80, MENU_KEY_MOK, "OK"⟩]

/-- `menu_key_to_sdlkey` (TapKey version, six menu keys). -/
def menu_key_to_sdlkey (menu_key : Int) : Int :=
  if menu_key = MENU_KEY_UP then SDLK_UP
  else if menu_key = MENU_KEY_DOWN then SDLK_DOWN
  else if menu_key = MENU_KEY_LEFT then SDLK_LEFT
  else if menu_key = MENU_KEY_RIGHT then SDLK_RIGHT
  else if menu_key = MENU_KEY_MOK then SDLK_RETURN
  else if menu_key = MENU_KEY_MBACK then SDLK_ESCAPE
  else SDLK_UNKNOWN

/-- The module's mutable static state (icon data, which is external
resource handling, is not modelled). -/
structure State where
  finger_zones : List Int
  current_buttons : Nat
  overlay_visible : Bool
  initialized : Bool
  menu_mode : Bool
  current_screen_w : Int
  current_screen_h : Int
deriving DecidableEq

/-- C static initializers: ints zero, `overlay_visible = 1`,
`current_screen_w/h = TOUCH_SCREEN_W/H`. -/
def initialState : State :=
  ⟨List.replicate MAX_FINGERS 0, 0, true, false, false, TOUCH_SCREEN_W, TOUCH_SCREEN_H⟩

def find_zone (s : State) (x y : Int) : Int :=
  find_zone_scaled (if s.menu_mode then menu_touch_zones else game_touch_zones)
    s.current_screen_w s.current_screen_h x y

/-- Key of zone `zidx` of the active table (the C code indexes
`zones[zone]` only with indices returned by `find_zone`). -/
def zone_key (zones : List touch_zone_t) (zidx : Int) : Int :=
  (zones.getD zidx.toNat ⟨0, 0, 0, 0, 0, ""⟩).key

/-- Bits contributed by one zone key in the game-mode aggregation of
`update_buttons`: the direct `DKEY` bit for non-negative keys, both
adjacent cardinal bits for the four diagonal markers (the `switch (key)`),
nothing otherwise. -/
def game_key_bits (key : Int) : Nat :=
  if 0 ≤ key then 1 <<< key.toNat
  else if key = DKEY_UP_RIGHT then (1 <<< DKEY_UP.toNat) ||| (1 <<< DKEY_RIGHT.toNat)
  else if key = DKEY_UP_LEFT then (1 <<< DKEY_UP.toNat) ||| (1 <<< DKEY_LEFT.toNat)
  else if key = DKEY_DOWN_RIGHT then (1 <<< DKEY_DOWN.toNat) ||| (1 <<< DKEY_RIGHT.toNat)
  else if key = DKEY_DOWN_LEFT then (1 <<< DKEY_DOWN.toNat) ||| (1 <<< DKEY_LEFT.toNat)
  else 0

/-- One step of the game-mode aggregation loop in `update_buttons`. -/
def game_agg_step (acc : Nat) (fz : Int) : Nat :=
  if 0 ≤ fz ∧ fz < (game_touch_zones.length : Int) then
    acc ||| game_key_bits (zone_key game_touch_zones fz)
  else acc

/-- Game-mode aggregated bitmask, recomputed from scratch over all finger
slots. -/
def game_aggregate (fingers : List Int) : Nat :=
  fingers.foldl game_agg_step 0

/-- `update_buttons`: in menu mode buttons are handled via the
tap-to-keystroke path and `current_buttons` is just zeroed. -/
def update_buttons (s : State) : State :=
  if s.menu_mode then {s with current_buttons := 0}
  else {s with current_buttons := game_aggregate s.finger_zones}

/-- `webos_touch_event`.  Result: `(outcome, new state, injected key
events)`; outcome `0` = unhandled, `1` = handled, `2` = menu requested. -/
def webos_touch_event (e : TouchEv) (s : State) : Int × State × List (Int × Bool) :=
  if !s.initialized then (0, s, [])
  else
    let zones := if s.menu_mode then menu_touch_zones else game_touch_zones
    match e with
    | .down which x y =>
      let finger_id := if which ≥ MAX_FINGERS then 0 else which
      let zone := find_zone s x y
      if 0 ≤ zone then
        if ¬s.menu_mode ∧ zone_key zones zone = -1 then (2, s, [])
        else
          let s1 := {s with finger_zones := s.finger_zones.set finger_id zone}
          if s.menu_mode then
            let sdlkey := menu_key_to_sdlkey (zone_key zones zone)
            if sdlkey ≠ SDLK_UNKNOWN then (1, s1, [(sdlkey, true), (sdlkey, false)])
            else (1, s1, [])
          else (1, update_buttons s1, [])
      else (1, s, [])
    | .btnup which =>
      let finger_id := if which ≥ MAX_FINGERS then 0 else which
      if s.menu_mode then
        (1, {s with finger_zones := List.replicate MAX_FINGERS (-1)}, [])
      else
        (1, update_buttons {s with finger_zones := s.finger_zones.set finger_id (-1)}, [])
    | .motion which x y button1 =>
      if s.menu_mode then (1, s, [])
      else if button1 then
        let finger_id := if which ≥ MAX_FINGERS then 0 else which
        let zone := find_zone s x y
        (1, update_buttons {s with finger_zones := s.finger_zones.set finger_id zone}, [])
      else (1, s, [])
    | .other => (0, s, [])

def webos_touch_get_buttons (s : State) : Nat :=
  s.current_buttons

def webos_touch_set_overlay_visible (visible : Bool) (s : State) : State :=
  {s with overlay_visible := visible}

/-- `webos_touch_init` (the SDL queue flush and icon loading are external
side effects). -/
def webos_touch_init (s : State) : State :=
  {s with finger_zones := List.replicate MAX_FINGERS (-1),
          current_buttons := 0,
          overlay_visible := true,
          menu_mode := false,
          initialized := true}

def webos_touch_finish (s : State) : State :=
  {s with initialized := false}

def webos_touch_set_menu_mode (in_menu : Bool) (s : State) : State :=
  if s.menu_mode ≠ in_menu then
    {s with menu_mode := in_menu,
            finger_zones := List.replicate MAX_FINGERS (-1),
            current_buttons := 0}
  else s

/-- TapKey poll: always 0, taps were already delivered as keystrokes. -/
def webos_touch_get_menu_buttons (_s : State) : Nat := 0

def runEvents (es : List TouchEv) (s : State) : State :=
  es.foldl (fun st e => (webos_touch_event e st).2.1) s

end TapKey

/-!
## Shared layout of the four `src/menu_test_variants/` files

The Debounce, Queue, SyncPoll and KeyInject variants all declare the same
zone tables, the same `find_zone`, and the same four menu keys.
-/
namespace Variants

def MENU_KEY_UP : Int := -10
def MENU_KEY_DOWN : Int := -11
def MENU_KEY_MOK : Int := -12
def MENU_KEY_MBACK : Int := -13

def game_touch_zones : List touch_zone_t := [
  ⟨80, 456, 80, 80, DKEY_UP, "UP"⟩,
  ⟨80, 616, 80, 80, DKEY_DOWN, "DN"⟩,
  ⟨0, 536, 80, 80, DKEY_LEFT, "LT"⟩,
  ⟨160, 536, 80, 80, DKEY_RIGHT, "RT"⟩,
  ⟨864, 456, 80, 80, DKEY_TRIANGLE, "/\\"⟩,
  ⟨864, 616, 80, 80, DKEY_CROSS, "X"⟩,
  ⟨784, 536, 80, 80, DKEY_SQUARE, "[]"⟩,
  ⟨944, 536, 80, 80, DKEY_CIRCLE, "O"⟩,
  ⟨0, 154, 120, 60, DKEY_L1, "L1"⟩,
  ⟨0, 214, 120, 60, DKEY_L2, "L2"⟩,
  ⟨904, 154, 120, 60, DKEY_R1, "R1"⟩,
  ⟨904, 214, 120, 60, DKEY_R2, "R2"⟩,
  ⟨400, 708, 100, 60, DKEY_SELECT, "SEL"⟩,
  ⟨524, 708, 100, 60, DKEY_START, "STA"⟩,
  ⟨462, 0, 100, 50, -1, "MENU"⟩]

def menu_touch_zones : List touch_zone_t := [
  ⟨50, 570, 120, 90, MENU_KEY_UP, "UP"⟩,
  ⟨190, 570, 120, 90, MENU_KEY_DOWN, "DOWN"⟩,
  ⟨714, 570, 120, 90, MENU_KEY_MBACK, "BACK"⟩,
  ⟨854, 570, 120, 90, MENU_KEY_MOK, "OK"⟩]

/-- Key of zone `zidx` of a table (variants index `zones[...]` only with
in-range values). -/
def zone_key (zones : List touch_zone_t) (zidx : Int) : Int :=
  (zones.getD zidx.toNat ⟨0, 0, 0, 0, 0, ""⟩).key

/-- Menu bit contributed by one finger slot: the `switch (key)` mapping
zone keys to `PBTN_*` bits shared by all four variants. -/
def menu_key_bit (key : Int) : Nat :=
  if key = MENU_KEY_UP then PBTN_UP
  else if key = MENU_KEY_DOWN then PBTN_DOWN
  else if key = MENU_KEY_MOK then PBTN_MOK
  else if key = MENU_KEY_MBACK then PBTN_MBACK
  else 0

/-- Menu-mode aggregation loop over the finger slots. -/
def menu_aggregate (fingers : List Int) : Nat :=
  fingers.foldl
    (fun acc fz =>
      if 0 ≤ fz ∧ fz < (menu_touch_zones.length : Int) then
        acc ||| menu_key_bit (zone_key menu_touch_zones fz)
      else acc) 0

/-- Game-mode aggregation loop over the finger slots (`key >= 0` only; the
variant tables have no diagonal zones). -/
def game_aggregate (fingers : List Int) : Nat :=
  fingers.foldl
    (fun acc fz =>
      if 0 ≤ fz ∧ fz < (game_touch_zones.length : Int) then
        let key := zone_key game_touch_zones fz
        if 0 ≤ key then acc ||| (1 <<< key.toNat) else acc
      else acc) 0

/-- Top-left corner of menu zone `i`, a point inside the zone. -/
def menu_zone_corner (i : Fin 4) : Int × Int :=
  ((menu_touch_zones.getD i ⟨0, 0, 0, 0, 0, ""⟩).x,
   (menu_touch_zones.getD i ⟨0, 0, 0, 0, 0, ""⟩).y)

/-- Navigation bit of menu zone `i`. -/
def menu_nav_bit (i : Fin 4) : Nat :=
  menu_key_bit ((menu_touch_zones.getD i ⟨0, 0, 0, 0, 0, ""⟩).key)

end Variants

/-!
## Debounce variant (`src/menu_test_variants/in_webos_touch_debounce.c`)

Poll-side edge detection with a 250 ms per-button cooldown after each
returned press.
-/
namespace Debounce

structure State where
  finger_zones : List Int
  current_buttons : Nat
  current_menu_buttons : Nat
  button_last_returned : List Nat
  button_was_pressed : List Bool
  overlay_visible : Bool
  initialized : Bool
  menu_mode : Bool
  current_screen_w : Int
  current_screen_h : Int
  resolution_stable_frames : Nat
deriving DecidableEq

/-- C static initializers. -/
def initialState : State :=
  ⟨List.replicate MAX_FINGERS 0, 0, 0, List.replicate 4 0, List.replicate 4 false,
   true, false, false, TOUCH_SCREEN_W, TOUCH_SCREEN_H, 0⟩

def find_zone (s : State) (x y : Int) : Int :=
  find_zone_scaled (if s.menu_mode then Variants.menu_touch_zones else Variants.game_touch_zones)
    s.current_screen_w s.current_screen_h x y

/-- `update_buttons`: recompute both aggregated bitmasks from scratch. -/
def update_buttons (s : State) : State :=
  if s.menu_mode then
    {s with current_buttons := 0, current_menu_buttons := Variants.menu_aggregate s.finger_zones}
  else
    {s with current_buttons := Variants.game_aggregate s.finger_zones, current_menu_buttons := 0}

/-- `webos_touch_event`: outcome `0` = unhandled, `1` = handled,
`2` = menu requested. -/
def webos_touch_event (e : TouchEv) (s : State) : Int × State :=
  if !s.initialized then (0, s)
  else
    let zones := if s.menu_mode then Variants.menu_touch_zones else Variants.game_touch_zones
    match e with
    | .down which x y =>
      let finger_id := if which ≥ MAX_FINGERS then 0 else which
      let zone := find_zone s x y
      if 0 ≤ zone then
        if ¬s.menu_mode ∧ Variants.zone_key zones zone = -1 then (2, s)
        else (1, update_buttons {s with finger_zones := s.finger_zones.set finger_id zone})
      else (1, s)
    | .btnup which =>
      let finger_id := if which ≥ MAX_FINGERS then 0 else which
      (1, update_buttons {s with finger_zones := s.finger_zones.set finger_id (-1)})
    | .motion which x y button1 =>
      if button1 then
        let finger_id := if which ≥ MAX_FINGERS then 0 else which
        let zone := find_zone s x y
        (1, update_buttons {s with finger_zones := s.finger_zones.set finger_id zone})
      else (1, s)
    | .other => (0, s)

def webos_touch_get_buttons (s : State) : Nat :=
  s.current_buttons

def webos_touch_set_overlay_visible (visible : Bool) (s : State) : State :=
  {s with overlay_visible := visible}

def webos_touch_init (s : State) : State :=
  {s with finger_zones := List.replicate MAX_FINGERS (-1),
          button_last_returned := List.replicate 4 0,
          button_was_pressed := List.replicate 4 false,
          current_buttons := 0,
          current_menu_buttons := 0,
          overlay_visible := true,
          initialized := true}

def webos_touch_finish (s : State) : State :=
  {s with initialized := false}

def webos_touch_set_menu_mode (in_menu : Bool) (s : State) : State :=
  if s.menu_mode ≠ in_menu then
    {s with menu_mode := in_menu,
            finger_zones := List.replicate MAX_FINGERS (-1),
            button_last_returned := List.replicate 4 0,
            button_was_pressed := List.replicate 4 false,
            current_buttons := 0,
            current_menu_buttons := 0,
            resolution_stable_frames := RESOLUTION_STABLE_THRESHOLD}
  else s

/-- `button_bits[4] = { PBTN_UP, PBTN_DOWN, PBTN_MBACK, PBTN_MOK }`. -/
def button_bits : List Nat := [PBTN_UP, PBTN_DOWN, PBTN_MBACK, PBTN_MOK]

/-- `webos_touch_get_menu_buttons(now)`: loop over the four buttons,
returning a bit on a press edge (`is_pressed && !button_was_pressed[i]`)
that survives the 250 ms cooldown, and recording the edge state. -/
def webos_touch_get_menu_buttons (now : Nat) (s : State) : Nat × State :=
  ([0, 1, 2, 3] : List Nat).foldl
    (fun acc i =>
      let st := acc.2
      let bi := button_bits.getD i 0
      let is_pressed := (s.current_menu_buttons &&& bi) ≠ 0
      let p :=
        if is_pressed ∧ st.button_was_pressed.getD i false = false then
          if DEBOUNCE_MS ≤ sub32 now (st.button_last_returned.getD i 0) then
            (acc.1 ||| bi, {st with button_last_returned := st.button_last_returned.set i now})
          else (acc.1, st)
        else (acc.1, st)
      (p.1, {p.2 with button_was_pressed := p.2.button_was_pressed.set i (decide is_pressed)}))
    (0, s)

def runEvents (es : List TouchEv) (s : State) : State :=
  es.foldl (fun st e => (webos_touch_event e st).2) s

/-- Run a trace of events and polls, collecting the poll results. -/
def run (as : List TraceAct) (s : State) : List Nat × State :=
  as.foldl
    (fun acc a =>
      match a with
      | .ev e => (acc.1, (webos_touch_event e acc.2).2)
      | .poll t =>
        let r := webos_touch_get_menu_buttons t acc.2
        (acc.1 ++ [r.1], r.2))
    ([], s)

/-- State on entering menu mode right after init. -/
def menuFresh : State :=
  webos_touch_set_menu_mode true (webos_touch_init initialState)

end Debounce

/-!
## Queue variant (`src/menu_test_variants/in_webos_touch_queue.c`)

Press edges are queued in a 16-slot circular FIFO and returned one per
poll.
-/
namespace Queue

structure State where
  finger_zones : List Int
  current_buttons : Nat
  event_queue : List Nat
  queue_head : Nat
  queue_tail : Nat
  prev_menu_buttons : Nat
  overlay_visible : Bool
  initialized : Bool
  menu_mode : Bool
  current_screen_w : Int
  current_screen_h : Int
  resolution_stable_frames : Nat
deriving DecidableEq

/-- C static initializers. -/
def initialState : State :=
  ⟨List.replicate MAX_FINGERS 0, 0, List.replicate EVENT_QUEUE_SIZE 0, 0, 0, 0,
   true, false, false, TOUCH_SCREEN_W, TOUCH_SCREEN_H, 0⟩

def queue_is_empty (s : State) : Bool :=
  s.queue_head == s.queue_tail

def queue_is_full (s : State) : Bool :=
  (s.queue_tail + 1) % EVENT_QUEUE_SIZE == s.queue_head

def queue_push (buttons : Nat) (s : State) : State :=
  if !queue_is_full s then
    {s with event_queue := s.event_queue.set s.queue_tail buttons,
            queue_tail := (s.queue_tail + 1) % EVENT_QUEUE_SIZE}
  else s

def queue_pop (s : State) : Nat × State :=
  if queue_is_empty s then (0, s)
  else
    (s.event_queue.getD s.queue_head 0,
     {s with queue_head := (s.queue_head + 1) % EVENT_QUEUE_SIZE})

def queue_clear (s : State) : State :=
  {s with queue_head := 0, queue_tail := 0}

def find_zone (s : State) (x y : Int) : Int :=
  find_zone_scaled (if s.menu_mode then Variants.menu_touch_zones else Variants.game_touch_zones)
    s.current_screen_w s.current_screen_h x y

/-- `get_current_menu_buttons`: menu bitmask from the finger slots
(0 outside menu mode). -/
def get_current_menu_buttons (s : State) : Nat :=
  if !s.menu_mode then 0 else Variants.menu_aggregate s.finger_zones

/-- `update_buttons`: recompute the game bitmask, then in menu mode queue
each newly pressed button (edge against `prev_menu_buttons`)
separately, in the order UP, DOWN, MOK, MBACK. -/
def update_buttons (s : State) : State :=
  let s := {s with current_buttons :=
    if s.menu_mode then 0 else Variants.game_aggregate s.finger_zones}
  if s.menu_mode then
    let curr := get_current_menu_buttons s
    let new_presses := curr &&& (4294967295 ^^^ s.prev_menu_buttons)
    let s := if new_presses &&& PBTN_UP ≠ 0 then queue_push PBTN_UP s else s
    let s := if new_presses &&& PBTN_DOWN ≠ 0 then queue_push PBTN_DOWN s else s
    let s := if new_presses &&& PBTN_MOK ≠ 0 then queue_push PBTN_MOK s else s
    let s := if new_presses &&& PBTN_MBACK ≠ 0 then queue_push PBTN_MBACK s else s
    {s with prev_menu_buttons := curr}
  else s

def webos_touch_event (e : TouchEv) (s : State) : Int × State :=
  if !s.initialized then (0, s)
  else
    let zones := if s.menu_mode then Variants.menu_touch_zones else Variants.game_touch_zones
    match e with
    | .down which x y =>
      let finger_id := if which ≥ MAX_FINGERS then 0 else which
      let zone := find_zone s x y
      if 0 ≤ zone then
        if ¬s.menu_mode ∧ Variants.zone_key zones zone = -1 then (2, s)
        else (1, update_buttons {s with finger_zones := s.finger_zones.set finger_id zone})
      else (1, s)
    | .btnup which =>
      let finger_id := if which ≥ MAX_FINGERS then 0 else which
      (1, update_buttons {s with finger_zones := s.finger_zones.set finger_id (-1)})
    | .motion which x y button1 =>
      if button1 then
        let finger_id := if which ≥ MAX_FINGERS then 0 else which
        let zone := find_zone s x y
        (1, update_buttons {s with finger_zones := s.finger_zones.set finger_id zone})
      else (1, s)
    | .other => (0, s)

def webos_touch_get_buttons (s : State) : Nat :=
  s.current_buttons

def webos_touch_set_overlay_visible (visible : Bool) (s : State) : State :=
  {s with overlay_visible := visible}

def webos_touch_init (s : State) : State :=
  queue_clear
    {s with finger_zones := List.replicate MAX_FINGERS (-1),
            current_buttons := 0,
            prev_menu_buttons := 0,
            overlay_visible := true,
            initialized := true}

def webos_touch_finish (s : State) : State :=
  {s with initialized := false}

def webos_touch_set_menu_mode (in_menu : Bool) (s : State) : State :=
  if s.menu_mode ≠ in_menu then
    queue_clear
      {s with menu_mode := in_menu,
              finger_zones := List.replicate MAX_FINGERS (-1),
              current_buttons := 0,
              prev_menu_buttons := 0,
              resolution_stable_frames := RESOLUTION_STABLE_THRESHOLD}
  else s

/-- `webos_touch_get_menu_buttons`: pop one queued event. -/
def webos_touch_get_menu_buttons (s : State) : Nat × State :=
  queue_pop s

def runEvents (es : List TouchEv) (s : State) : State :=
  es.foldl (fun st e => (webos_touch_event e st).2) s

/-- Run a trace of events and polls, collecting the poll results (the
queue poll ignores the clock). -/
def run (as : List TraceAct) (s : State) : List Nat × State :=
  as.foldl
    (fun acc a =>
      match a with
      | .ev e => (acc.1, (webos_touch_event e acc.2).2)
      | .poll _ =>
        let r := webos_touch_get_menu_buttons acc.2
        (acc.1 ++ [r.1], r.2))
    ([], s)

/-- Pop `n` times, collecting the results. -/
def popN (n : Nat) (s : State) : List Nat × State :=
  match n with
  | 0 => ([], s)
  | n + 1 =>
    let r := queue_pop s
    let rest := popN n r.2
    (r.1 :: rest.1, rest.2)

/-- State on entering menu mode right after init. -/
def menuFresh : State :=
  webos_touch_set_menu_mode true (webos_touch_init initialState)

/-- `n` zero-duration taps of the UP menu zone (press immediately followed
by release), with no polls in between. -/
def upTaps (n : Nat) : List TouchEv :=
  (List.range n).flatMap (fun _ => [TouchEv.down 0 60 600, TouchEv.btnup 0])

end Queue

/-!
## SyncPoll variant (`src/menu_test_variants/in_webos_touch_syncpoll.c`)

Events latch buttons into a pending set; polls promote pending bits to an
active set held for 120 ms.
-/
namespace SyncPoll

structure State where
  finger_zones : List Int
  current_buttons : Nat
  pending_buttons : Nat
  active_buttons : Nat
  active_until : Nat
  finger_pressing : List Bool
  needs_release : List Bool
  overlay_visible : Bool
  initialized : Bool
  menu_mode : Bool
  current_screen_w : Int
  current_screen_h : Int
  resolution_stable_frames : Nat
deriving DecidableEq

/-- C static initializers. -/
def initialState : State :=
  ⟨List.replicate MAX_FINGERS 0, 0, 0, 0, 0, List.replicate 4 false, List.replicate 4 false,
   true, false, false, TOUCH_SCREEN_W, TOUCH_SCREEN_H, 0⟩

def find_zone (s : State) (x y : Int) : Int :=
  find_zone_scaled (if s.menu_mode then Variants.menu_touch_zones else Variants.game_touch_zones)
    s.current_screen_w s.current_screen_h x y

/-- `key_to_index`: menu key to button index 0..3, `-1` otherwise. -/
def key_to_index (key : Int) : Int :=
  if key = Variants.MENU_KEY_UP then 0
  else if key = Variants.MENU_KEY_DOWN then 1
  else if key = Variants.MENU_KEY_MBACK then 2
  else if key = Variants.MENU_KEY_MOK then 3
  else -1

/-- `index_to_pbtn`. -/
def index_to_pbtn (idx : Int) : Nat :=
  if idx = 0 then PBTN_UP
  else if idx = 1 then PBTN_DOWN
  else if idx = 2 then PBTN_MBACK
  else if idx = 3 then PBTN_MOK
  else 0

/-- `update_buttons`: reset `finger_pressing`, walk the finger slots
(latching first presses into `pending_buttons` in menu mode, aggregating
game bits otherwise), then clear `needs_release` for unpressed buttons. -/
def update_buttons (s : State) : State :=
  let s := {s with current_buttons := 0, finger_pressing := List.replicate 4 false}
  let s :=
    s.finger_zones.foldl
      (fun st fz =>
        let zones := if st.menu_mode then Variants.menu_touch_zones else Variants.game_touch_zones
        if 0 ≤ fz ∧ fz < (zones.length : Int) then
          let key := Variants.zone_key zones fz
          if st.menu_mode then
            let idx := key_to_index key
            if 0 ≤ idx then
              let st := {st with finger_pressing := st.finger_pressing.set idx.toNat true}
              if st.needs_release.getD idx.toNat false = false then
                {st with pending_buttons := st.pending_buttons ||| index_to_pbtn idx,
                         needs_release := st.needs_release.set idx.toNat true}
              else st
            else st
          else if 0 ≤ key then {st with current_buttons := st.current_buttons ||| (1 <<< key.toNat)}
          else st
        else st) s
  let nr :=
    (List.range 4).foldl
      (fun nr i => if s.finger_pressing.getD i false = false then nr.set i false else nr)
      s.needs_release
  {s with needs_release := nr}

def webos_touch_event (e : TouchEv) (s : State) : Int × State :=
  if !s.initialized then (0, s)
  else
    let zones := if s.menu_mode then Variants.menu_touch_zones else Variants.game_touch_zones
    match e with
    | .down which x y =>
      let finger_id := if which ≥ MAX_FINGERS then 0 else which
      let zone := find_zone s x y
      if 0 ≤ zone then
        if ¬s.menu_mode ∧ Variants.zone_key zones zone = -1 then (2, s)
        else (1, update_buttons {s with finger_zones := s.finger_zones.set finger_id zone})
      else (1, s)
    | .btnup which =>
      let finger_id := if which ≥ MAX_FINGERS then 0 else which
      (1, update_buttons {s with finger_zones := s.finger_zones.set finger_id (-1)})
    | .motion which x y button1 =>
      if button1 then
        let finger_id := if which ≥ MAX_FINGERS then 0 else which
        let zone := find_zone s x y
        (1, update_buttons {s with finger_zones := s.finger_zones.set finger_id zone})
      else (1, s)
    | .other => (0, s)

def webos_touch_get_buttons (s : State) : Nat :=
  s.current_buttons

def webos_touch_set_overlay_visible (visible : Bool) (s : State) : State :=
  {s with overlay_visible := visible}

def webos_touch_init (s : State) : State :=
  {s with finger_zones := List.replicate MAX_FINGERS (-1),
          finger_pressing := List.replicate 4 false,
          needs_release := List.replicate 4 false,
          current_buttons := 0,
          pending_buttons := 0,
          active_buttons := 0,
          active_until := 0,
          overlay_visible := true,
          initialized := true}

def webos_touch_finish (s : State) : State :=
  {s with initialized := false}

def webos_touch_set_menu_mode (in_menu : Bool) (s : State) : State :=
  if s.menu_mode ≠ in_menu then
    {s with menu_mode := in_menu,
            finger_zones := List.replicate MAX_FINGERS (-1),
            finger_pressing := List.replicate 4 false,
            needs_release := List.replicate 4 false,
            current_buttons := 0,
            pending_buttons := 0,
            active_buttons := 0,
            active_until := 0,
            resolution_stable_frames := RESOLUTION_STABLE_THRESHOLD}
  else s

/-- `webos_touch_get_menu_buttons(now)`: expire the active set when
`now >= active_until`, then promote any pending bits to active for
`ACTIVE_DURATION_MS`, and return the active set. -/
def webos_touch_get_menu_buttons (now : Nat) (s : State) : Nat × State :=
  let s := if s.active_buttons ≠ 0 ∧ s.active_until ≤ now then {s with active_buttons := 0} else s
  let s :=
    if s.pending_buttons ≠ 0 then
      {s with active_buttons := s.pending_buttons,
              active_until := now + ACTIVE_DURATION_MS,
              pending_buttons := 0}
    else s
  (s.active_buttons, s)

def runEvents (es : List TouchEv) (s : State) : State :=
  es.foldl (fun st e => (webos_touch_event e st).2) s

/-- Run a trace of events and polls, collecting the poll results. -/
def run (as : List TraceAct) (s : State) : List Nat × State :=
  as.foldl
    (fun acc a =>
      match a with
      | .ev e => (acc.1, (webos_touch_event e acc.2).2)
      | .poll t =>
        let r := webos_touch_get_menu_buttons t acc.2
        (acc.1 ++ [r.1], r.2))
    ([], s)

/-- State on entering menu mode right after init. -/
def menuFresh : State :=
  webos_touch_set_menu_mode true (webos_touch_init initialState)

end SyncPoll

/-!
## KeyInject variant (`src/menu_test_variants/in_webos_touch_keyinject.c`)

Per-zone edge detection emitting synthetic SDL key-down/key-up events;
the poll is a stub returning 0.  Injected events are modelled as an
output list of `(keysym, pressed)` pairs.
-/
namespace KeyInject

/-- `menu_key_to_sdlkey` (KeyInject version, four menu keys). -/
def menu_key_to_sdlkey (menu_key : Int) : Int :=
  if menu_key = Variants.MENU_KEY_UP then SDLK_UP
  else if menu_key = Variants.MENU_KEY_DOWN then SDLK_DOWN
  else if menu_key = Variants.MENU_KEY_MOK then SDLK_RETURN
  else if menu_key = Variants.MENU_KEY_MBACK then SDLK_ESCAPE
  else SDLK_UNKNOWN

structure State where
  finger_zones : List Int
  current_buttons : Nat
  visual_menu_buttons : Nat
  prev_zone_pressed : List Bool
  overlay_visible : Bool
  initialized : Bool
  menu_mode : Bool
  current_screen_w : Int
  current_screen_h : Int
  resolution_stable_frames : Nat
deriving DecidableEq

/-- C static initializers. -/
def initialState : State :=
  ⟨List.replicate MAX_FINGERS 0, 0, 0, List.replicate 4 false,
   true, false, false, TOUCH_SCREEN_W, TOUCH_SCREEN_H, 0⟩

def find_zone (s : State) (x y : Int) : Int :=
  find_zone_scaled (if s.menu_mode then Variants.menu_touch_zones else Variants.game_touch_zones)
    s.current_screen_w s.current_screen_h x y

/-- `zone_pressed[]` as computed by the finger loop of `update_buttons`:
whether some finger occupies menu zone `i`. -/
def zone_pressed_of (fingers : List Int) (i : Nat) : Bool :=
  fingers.any (fun fz => fz == (i : Int))

/-- `update_buttons`: recompute aggregates, then in menu mode emit a
key-down on each zone's 0→1 edge and a key-up on each 1→0 edge against
`prev_zone_pressed`, updating it.  Returns the new state and the emitted
key events. -/
def update_buttons (s : State) : State × List (Int × Bool) :=
  let zp := fun i => s.menu_mode && zone_pressed_of s.finger_zones i
  let s := {s with
    current_buttons := if s.menu_mode then 0 else Variants.game_aggregate s.finger_zones,
    visual_menu_buttons := if s.menu_mode then Variants.menu_aggregate s.finger_zones else 0}
  if s.menu_mode then
    let r :=
      (List.range 4).foldl
        (fun (acc : State × List (Int × Bool)) (i : Nat) =>
          let st := acc.1
          let sdlkey := menu_key_to_sdlkey (Variants.zone_key Variants.menu_touch_zones (Int.ofNat i))
          if sdlkey = SDLK_UNKNOWN then acc
          else
            let emitted :=
              if zp i = true ∧ st.prev_zone_pressed.getD i false = false then
                acc.2 ++ [(sdlkey, true)]
              else if zp i = false ∧ st.prev_zone_pressed.getD i false = true then
                acc.2 ++ [(sdlkey, false)]
              else acc.2
            ({st with prev_zone_pressed := st.prev_zone_pressed.set i (zp i)}, emitted))
        (s, [])
    r
  else (s, [])

def webos_touch_event (e : TouchEv) (s : State) : Int × State × List (Int × Bool) :=
  if !s.initialized then (0, s, [])
  else
    let zones := if s.menu_mode then Variants.menu_touch_zones else Variants.game_touch_zones
    match e with
    | .down which x y =>
      let finger_id := if which ≥ MAX_FINGERS then 0 else which
      let zone := find_zone s x y
      if 0 ≤ zone then
        if ¬s.menu_mode ∧ Variants.zone_key zones zone = -1 then (2, s, [])
        else
          let r := update_buttons {s with finger_zones := s.finger_zones.set finger_id zone}
          (1, r.1, r.2)
      else (1, s, [])
    | .btnup which =>
      let finger_id := if which ≥ MAX_FINGERS then 0 else which
      let r := update_buttons {s with finger_zones := s.finger_zones.set finger_id (-1)}
      (1, r.1, r.2)
    | .motion which x y button1 =>
      if button1 then
        let finger_id := if which ≥ MAX_FINGERS then 0 else which
        let zone := find_zone s x y
        let r := update_buttons {s with finger_zones := s.finger_zones.set finger_id zone}
        (1, r.1, r.2)
      else (1, s, [])
    | .other => (0, s, [])

def webos_touch_get_buttons (s : State) : Nat :=
  s.current_buttons

def webos_touch_set_overlay_visible (visible : Bool) (s : State) : State :=
  {s with overlay_visible := visible}

def webos_touch_init (s : State) : State :=
  {s with finger_zones := List.replicate MAX_FINGERS (-1),
          prev_zone_pressed := List.replicate 4 false,
          current_buttons := 0,
          visual_menu_buttons := 0,
          overlay_visible := true,
          initialized := true}

def webos_touch_finish (s : State) : State :=
  {s with initialized := false}

def webos_touch_set_menu_mode (in_menu : Bool) (s : State) : State :=
  if s.menu_mode ≠ in_menu then
    {s with menu_mode := in_menu,
            finger_zones := List.replicate MAX_FINGERS (-1),
            prev_zone_pressed := List.replicate 4 false,
            current_buttons := 0,
            visual_menu_buttons := 0,
            resolution_stable_frames := RESOLUTION_STABLE_THRESHOLD}
  else s

/-- KeyInject poll: stub, the keyboard driver handles the input. -/
def webos_touch_get_menu_buttons (_s : State) : Nat := 0

def runEvents (es : List TouchEv) (s : State) : State :=
  es.foldl (fun st e => (webos_touch_event e st).2.1) s

end KeyInject

end WebosTouch

/-! ## Theorems -/

open WebosTouch

theorem find_zone_list_ge_neg_one (zs : List touch_zone_t) (x y : Int) :
    -1 ≤ find_zone_list zs x y := by
  induction zs with
  | nil => simp [find_zone_list]
  | cons z rest ih =>
    simp only [find_zone_list]
    split
    · norm_num
    · split
      · norm_num
      · omega

theorem find_zone_list_neg_one_iff (zs : List touch_zone_t) (x y : Int) :
    find_zone_list zs x y = -1 ↔ ∀ z ∈ zs, zone_contains z x y = false := by
  induction zs with
  | nil => simp [find_zone_list]
  | cons z rest ih =>
    simp only [find_zone_list, List.mem_cons]
    rcases h : zone_contains z x y with _ | _
    · simp only [if_neg (by simp : ¬(false = true))]
      split
      · next hr =>
        simp only [hr]
        constructor
        · intro _ w hw
          rcases hw with rfl | hw
          · exact h
          · exact (ih.mp hr) w hw
        · intro _; trivial
      · next hr =>
        have hge := find_zone_list_ge_neg_one rest x y
        constructor
        · intro hc; exact absurd hc (by omega)
        · intro hall
          exact absurd (ih.mpr (fun w hw => hall w (Or.inr hw))) hr
    · simp only [if_pos rfl]
      constructor
      · intro hc; exact absurd hc (by norm_num)
      · intro hall
        have := hall z (Or.inl rfl)
        simp [h] at this

theorem find_zone_list_first_match (zs1 : List touch_zone_t) (z : touch_zone_t)
    (zs2 : List touch_zone_t) (x y : Int)
    (h1 : ∀ z' ∈ zs1, zone_contains z' x y = false)
    (h2 : zone_contains z x y = true) :
    find_zone_list (zs1 ++ z :: zs2) x y = (zs1.length : Int) := by
  induction zs1 with
  | nil => simp [find_zone_list, h2]
  | cons a t ih =>
    have ha : zone_contains a x y = false := h1 a (List.mem_cons_self a t)
    have ht : ∀ z' ∈ t, zone_contains z' x y = false := fun w hw => h1 w (List.mem_cons_of_mem a hw)
    have hr := ih ht
    have hne : ((t.length : Int)) ≠ -1 := by omega
    simp only [List.cons_append, find_zone_list, ha, Bool.false_eq_true, if_false,
      List.append_eq, hr, if_neg hne, List.length_cons]
    push_cast
    ring

/-- C8: zone hit-testing on logical coordinates returns the index of the
first zone in the active mode's table order satisfying the half-open
containment test (left/top inclusive, right/bottom exclusive), `-1` when
no zone contains the point; at the native 1024x768 surface the driver's
`find_zone` is exactly this search on the active table, and for a zone
`{x=10,y=10,w=10,h=10}` the points (10,10) and (19,19) are inside while
(20,20) is outside. -/
theorem c8_zone_hit_test :
    (∀ (zs : List touch_zone_t) (x y : Int),
      find_zone_list zs x y = -1 ↔ ∀ z ∈ zs, zone_contains z x y = false) ∧
    (∀ (zs1 : List touch_zone_t) (z : touch_zone_t) (zs2 : List touch_zone_t) (x y : Int),
      (∀ z' ∈ zs1, zone_contains z' x y = false) → zone_contains z x y = true →
      find_zone_list (zs1 ++ z :: zs2) x y = (zs1.length : Int)) ∧
    (∀ (fz : List Int) (cb : Nat) (ov ini mm : Bool) (x y : Int),
      TapKey.find_zone ⟨fz, cb, ov, ini, mm, 1024, 768⟩ x y =
        find_zone_list (if mm then TapKey.menu_touch_zones else TapKey.game_touch_zones) x y) ∧
    (zone_contains ⟨10, 10, 10, 10, 0, ""⟩ 10 10 = true ∧
     zone_contains ⟨10, 10, 10, 10, 0, ""⟩ 19 19 = true ∧
     zone_contains ⟨10, 10, 10, 10, 0, ""⟩ 20 20 = false) := by
  refine ⟨find_zone_list_neg_one_iff, find_zone_list_first_match, ?_, by decide, by decide, by decide⟩
  intro fz cb ov ini mm x y
  simp only [TapKey.find_zone, find_zone_scaled, TOUCH_SCREEN_W, TOUCH_SCREEN_H]
  rw [Int.mul_tdiv_cancel _ (by norm_num), Int.mul_tdiv_cancel _ (by norm_num)]

theorem game_agg_step_or (acc : Nat) (fz : Int) :
    TapKey.game_agg_step acc fz = acc ||| TapKey.game_agg_step 0 fz := by
  unfold TapKey.game_agg_step
  split <;> simp [Nat.zero_or, Nat.or_zero]

theorem game_agg_foldl_or (l : List Int) :
    ∀ acc : Nat, l.foldl TapKey.game_agg_step acc = acc ||| l.foldl TapKey.game_agg_step 0 := by
  induction l with
  | nil => intro acc; simp [Nat.or_zero]
  | cons a t ih =>
    intro acc
    simp only [List.foldl_cons]
    rw [ih (TapKey.game_agg_step acc a), ih (TapKey.game_agg_step 0 a),
      game_agg_step_or acc a, Nat.or_assoc]

theorem game_aggregate_testBit_of_mem (l : List Int) (v : Int) (k : Nat)
    (hv : v ∈ l) (hb : (TapKey.game_agg_step 0 v).testBit k = true) :
    (TapKey.game_aggregate l).testBit k = true := by
  induction l with
  | nil => cases hv
  | cons a t ih =>
    unfold TapKey.game_aggregate at *
    simp only [List.foldl_cons]
    rw [game_agg_foldl_or t (TapKey.game_agg_step 0 a)]
    rcases List.mem_cons.mp hv with rfl | hvt
    · simp [Nat.testBit_or, hb]
    · simp [Nat.testBit_or, ih hvt]

theorem game_aggregate_only_upright (l : List Int)
    (h : ∀ f ∈ l, f = -1 ∨ f = 4) :
    TapKey.game_aggregate l = if (4 : Int) ∈ l then 48 else 0 := by
  induction l with
  | nil => simp [TapKey.game_aggregate]
  | cons a t ih =>
    have ht : ∀ f ∈ t, f = -1 ∨ f = 4 := fun f hf => h f (List.mem_cons_of_mem a hf)
    unfold TapKey.game_aggregate at *
    simp only [List.foldl_cons]
    rw [game_agg_foldl_or t (TapKey.game_agg_step 0 a), ih ht]
    rcases h a (List.mem_cons_self a t) with rfl | rfl
    · have hstep : TapKey.game_agg_step 0 (-1) = 0 := by decide
      have hmem : ((4 : Int) ∈ (-1 : Int) :: t) ↔ (4 : Int) ∈ t := by
        simp [List.mem_cons]
      rw [hstep]
      simp [hmem, Nat.zero_or]
    · have hstep : TapKey.game_agg_step 0 4 = 48 := by decide
      have hmem : (4 : Int) ∈ (4 : Int) :: t := List.mem_cons_self 4 t
      rw [hstep, if_pos hmem]
      split <;> decide

/-- C9: with only the up-right diagonal D-pad zone occupied (zone index 4
of the TapKey game table) the aggregated bitmask is exactly
`(1 << DKEY_UP) | (1 << DKEY_RIGHT)` and nothing else; in general every
occupied diagonal zone (indices 4..7) contributes both of its adjacent
cardinal direction bits, and in Game mode `update_buttons` stores exactly
this aggregate. -/
theorem c9_diagonal_combination :
    (∀ fingers : List Int, (∀ f ∈ fingers, f = -1 ∨ f = 4) → (4 : Int) ∈ fingers →
      TapKey.game_aggregate fingers = ((1 <<< DKEY_UP.toNat) ||| (1 <<< DKEY_RIGHT.toNat))) ∧
    (∀ fingers : List Int,
      ((4 : Int) ∈ fingers →
        (TapKey.game_aggregate fingers).testBit DKEY_UP.toNat = true ∧
        (TapKey.game_aggregate fingers).testBit DKEY_RIGHT.toNat = true) ∧
      ((5 : Int) ∈ fingers →
        (TapKey.game_aggregate fingers).testBit DKEY_UP.toNat = true ∧
        (TapKey.game_aggregate fingers).testBit DKEY_LEFT.toNat = true) ∧
      ((6 : Int) ∈ fingers →
        (TapKey.game_aggregate fingers).testBit DKEY_DOWN.toNat = true ∧
        (TapKey.game_aggregate fingers).testBit DKEY_RIGHT.toNat = true) ∧
      ((7 : Int) ∈ fingers →
        (TapKey.game_aggregate fingers).testBit DKEY_DOWN.toNat = true ∧
        (TapKey.game_aggregate fingers).testBit DKEY_LEFT.toNat = true)) ∧
    (∀ (fz : List Int) (cb : Nat) (ov ini : Bool) (sw sh : Int),
      TapKey.update_buttons ⟨fz, cb, ov, ini, false, sw, sh⟩ =
        ⟨fz, TapKey.game_aggregate fz, ov, ini, false, sw, sh⟩) := by
  refine ⟨?_, ?_, ?_⟩
  · intro fingers hall hmem
    rw [game_aggregate_only_upright fingers hall, if_pos hmem]
    decide
  · intro fingers
    exact ⟨fun hm => ⟨game_aggregate_testBit_of_mem fingers 4 _ hm (by decide),
              game_aggregate_testBit_of_mem fingers 4 _ hm (by decide)⟩,
           fun hm => ⟨game_aggregate_testBit_of_mem fingers 5 _ hm (by decide),
              game_aggregate_testBit_of_mem fingers 5 _ hm (by decide)⟩,
           fun hm => ⟨game_aggregate_testBit_of_mem fingers 6 _ hm (by decide),
              game_aggregate_testBit_of_mem fingers 6 _ hm (by decide)⟩,
           fun hm => ⟨game_aggregate_testBit_of_mem fingers 7 _ hm (by decide),
              game_aggregate_testBit_of_mem fingers 7 _ hm (by decide)⟩⟩
  · intro fz cb ov ini sw sh
    rfl

/-- Witness for C9: a single finger on the up-right diagonal zone. -/
theorem c9_diagonal_combination_witness :
    TapKey.game_aggregate [4] = ((1 <<< DKEY_UP.toNat) ||| (1 <<< DKEY_RIGHT.toNat)) :=
  c9_diagonal_combination.1 [4] (by decide) (by decide)

/-- C10: after init, a press whose coordinates fall outside every zone of
the active table returns outcome 1 (Handled) and leaves the whole module
state (finger occupancy, aggregated bitmask, policy state) unchanged, in
the TapKey build and the Queue variant. -/
theorem c10_outside_press_handled :
    (∀ (w : Nat) (x y : Int) (s : TapKey.State), s.initialized = true →
      TapKey.find_zone s x y = -1 →
      TapKey.webos_touch_event (.down w x y) s = (1, s, [])) ∧
    (∀ (w : Nat) (x y : Int) (s : Queue.State), s.initialized = true →
      Queue.find_zone s x y = -1 →
      Queue.webos_touch_event (.down w x y) s = (1, s)) := by
  constructor
  · intro w x y s h hz
    simp [TapKey.webos_touch_event, h, hz]
  · intro w x y s h hz
    simp [Queue.webos_touch_event, h, hz]

/-- Witness for C10: a press at device point (0,0) right after init (game
mode), which lies in no zone of either game table. -/
theorem c10_outside_press_handled_witness :
    (TapKey.webos_touch_init TapKey.initialState).initialized = true ∧
    TapKey.find_zone (TapKey.webos_touch_init TapKey.initialState) 0 0 = -1 ∧
    TapKey.webos_touch_event (.down 0 0 0) (TapKey.webos_touch_init TapKey.initialState) =
      (1, TapKey.webos_touch_init TapKey.initialState, []) ∧
    Queue.webos_touch_event (.down 0 0 0) (Queue.webos_touch_init Queue.initialState) =
      (1, Queue.webos_touch_init Queue.initialState) :=
  ⟨by decide, by decide,
   c10_outside_press_handled.1 0 0 0 (TapKey.webos_touch_init TapKey.initialState)
     (by decide) (by decide),
   c10_outside_press_handled.2 0 0 0 (Queue.webos_touch_init Queue.initialState)
     (by decide) (by decide)⟩

/-- C7 counterexample: `webos_touch_set_overlay_visible` is not gated on
`initialized` — called on the pre-init state it records the flag, so not
every public operation is a no-op before init. -/
theorem c7_counterexample_overlay_before_init :
    TapKey.webos_touch_set_overlay_visible false TapKey.initialState ≠ TapKey.initialState := by
  decide

/-- C7 amended: before `init` (and after `finish`, both meaning
`initialized = false`) `handlePointerEvent` is a no-op returning
Unhandled (0) in every variant; but `setOverlayVisible` (and `setMode`,
and the stateful polls) are not gated on initialization and may still
change state. -/
theorem c7_uninitialized_event_noop :
    ∀ e : TouchEv,
    (∀ s : TapKey.State, s.initialized = false →
      TapKey.webos_touch_event e s = (0, s, [])) ∧
    (∀ s : Debounce.State, s.initialized = false →
      Debounce.webos_touch_event e s = (0, s)) ∧
    (∀ s : Queue.State, s.initialized = false →
      Queue.webos_touch_event e s = (0, s)) ∧
    (∀ s : SyncPoll.State, s.initialized = false →
      SyncPoll.webos_touch_event e s = (0, s)) ∧
    (∀ s : KeyInject.State, s.initialized = false →
      KeyInject.webos_touch_event e s = (0, s, [])) := by
  intro e
  refine ⟨?_, ?_, ?_, ?_, ?_⟩ <;> intro s h
  · simp [TapKey.webos_touch_event, h]
  · simp [Debounce.webos_touch_event, h]
  · simp [Queue.webos_touch_event, h]
  · simp [SyncPoll.webos_touch_event, h]
  · simp [KeyInject.webos_touch_event, h]

/-- Witness for C7: the pre-init static state of each variant. -/
theorem c7_uninitialized_event_noop_witness :
    TapKey.initialState.initialized = false ∧
    TapKey.webos_touch_event .other TapKey.initialState = (0, TapKey.initialState, []) ∧
    Debounce.webos_touch_event .other Debounce.initialState = (0, Debounce.initialState) ∧
    Queue.webos_touch_event .other Queue.initialState = (0, Queue.initialState) ∧
    SyncPoll.webos_touch_event .other SyncPoll.initialState = (0, SyncPoll.initialState) ∧
    KeyInject.webos_touch_event .other KeyInject.initialState = (0, KeyInject.initialState, []) :=
  ⟨by decide,
   (c7_uninitialized_event_noop .other).1 TapKey.initialState (by decide),
   (c7_uninitialized_event_noop .other).2.1 Debounce.initialState (by decide),
   (c7_uninitialized_event_noop .other).2.2.1 Queue.initialState (by decide),
   (c7_uninitialized_event_noop .other).2.2.2.1 SyncPoll.initialState (by decide),
   (c7_uninitialized_event_noop .other).2.2.2.2 KeyInject.initialState (by decide)⟩

theorem debounce_poll_quiescent (now : Nat) (s : Debounce.State)
    (h : s.current_menu_buttons = 0) (hw : s.button_was_pressed = List.replicate 4 false) :
    Debounce.webos_touch_get_menu_buttons now s = (0, s) := by
  obtain ⟨fz, cb, cmb, lr, wp, ov, ini, m, sw, sh, rsf⟩ := s
  dsimp only at h hw
  subst h
  subst hw
  simp [Debounce.webos_touch_get_menu_buttons, Debounce.button_bits, List.replicate]

theorem syncpoll_poll_quiescent (now : Nat) (s : SyncPoll.State)
    (h : s.pending_buttons = 0) (ha : s.active_buttons = 0) :
    SyncPoll.webos_touch_get_menu_buttons now s = (0, s) := by
  simp [SyncPoll.webos_touch_get_menu_buttons, h, ha]

theorem queue_poll_empty (s : Queue.State) (h : s.queue_head = s.queue_tail) :
    Queue.webos_touch_get_menu_buttons s = (0, s) := by
  simp [Queue.webos_touch_get_menu_buttons, Queue.queue_pop, Queue.queue_is_empty, h]

/-- C6: `set_menu_mode` with the already-active mode leaves the state
unchanged in every variant; switching to a different mode clears all
finger occupancy, zeroes the aggregated bitmasks and resets all
policy-internal state (cooldown timestamps and edge flags, queue indices
and previous-state mask, pending/active/expiry and latches, per-zone edge
flags); and holding Up in Menu mode, switching to Game and back to Menu
without a release, yields no spurious Up edge from any later poll. -/
theorem c6_mode_transition_reset :
    (∀ (fz : List Int) (cb : Nat) (ov ini m : Bool) (sw sh : Int),
      TapKey.webos_touch_set_menu_mode m ⟨fz, cb, ov, ini, m, sw, sh⟩ =
        ⟨fz, cb, ov, ini, m, sw, sh⟩ ∧
      TapKey.webos_touch_set_menu_mode (!m) ⟨fz, cb, ov, ini, m, sw, sh⟩ =
        ⟨List.replicate MAX_FINGERS (-1), 0, ov, ini, !m, sw, sh⟩) ∧
    (∀ (fz : List Int) (cb cmb : Nat) (lr : List Nat) (wp : List Bool)
        (ov ini m : Bool) (sw sh : Int) (rsf : Nat),
      Debounce.webos_touch_set_menu_mode m ⟨fz, cb, cmb, lr, wp, ov, ini, m, sw, sh, rsf⟩ =
        ⟨fz, cb, cmb, lr, wp, ov, ini, m, sw, sh, rsf⟩ ∧
      Debounce.webos_touch_set_menu_mode (!m) ⟨fz, cb, cmb, lr, wp, ov, ini, m, sw, sh, rsf⟩ =
        ⟨List.replicate MAX_FINGERS (-1), 0, 0, List.replicate 4 0, List.replicate 4 false,
         ov, ini, !m, sw, sh, RESOLUTION_STABLE_THRESHOLD⟩) ∧
    (∀ (fz : List Int) (cb : Nat) (eq : List Nat) (qh qt pmb : Nat)
        (ov ini m : Bool) (sw sh : Int) (rsf : Nat),
      Queue.webos_touch_set_menu_mode m ⟨fz, cb, eq, qh, qt, pmb, ov, ini, m, sw, sh, rsf⟩ =
        ⟨fz, cb, eq, qh, qt, pmb, ov, ini, m, sw, sh, rsf⟩ ∧
      Queue.webos_touch_set_menu_mode (!m) ⟨fz, cb, eq, qh, qt, pmb, ov, ini, m, sw, sh, rsf⟩ =
        ⟨List.replicate MAX_FINGERS (-1), 0, eq, 0, 0, 0,
         ov, ini, !m, sw, sh, RESOLUTION_STABLE_THRESHOLD⟩) ∧
    (∀ (fz : List Int) (cb pend act : Nat) (au : Nat) (fp nr : List Bool)
        (ov ini m : Bool) (sw sh : Int) (rsf : Nat),
      SyncPoll.webos_touch_set_menu_mode m
          ⟨fz, cb, pend, act, au, fp, nr, ov, ini, m, sw, sh, rsf⟩ =
        ⟨fz, cb, pend, act, au, fp, nr, ov, ini, m, sw, sh, rsf⟩ ∧
      SyncPoll.webos_touch_set_menu_mode (!m)
          ⟨fz, cb, pend, act, au, fp, nr, ov, ini, m, sw, sh, rsf⟩ =
        ⟨List.replicate MAX_FINGERS (-1), 0, 0, 0, 0,
         List.replicate 4 false, List.replicate 4 false,
         ov, ini, !m, sw, sh, RESOLUTION_STABLE_THRESHOLD⟩) ∧
    (∀ (fz : List Int) (cb vmb : Nat) (pzp : List Bool)
        (ov ini m : Bool) (sw sh : Int) (rsf : Nat),
      KeyInject.webos_touch_set_menu_mode m ⟨fz, cb, vmb, pzp, ov, ini, m, sw, sh, rsf⟩ =
        ⟨fz, cb, vmb, pzp, ov, ini, m, sw, sh, rsf⟩ ∧
      KeyInject.webos_touch_set_menu_mode (!m) ⟨fz, cb, vmb, pzp, ov, ini, m, sw, sh, rsf⟩ =
        ⟨List.replicate MAX_FINGERS (-1), 0, 0, List.replicate 4 false,
         ov, ini, !m, sw, sh, RESOLUTION_STABLE_THRESHOLD⟩) ∧
    (∀ t : Nat,
      Debounce.webos_touch_get_menu_buttons t
          (Debounce.webos_touch_set_menu_mode true
            (Debounce.webos_touch_set_menu_mode false
              (Debounce.runEvents [.down 0 60 600] Debounce.menuFresh))) =
        (0, Debounce.webos_touch_set_menu_mode true
            (Debounce.webos_touch_set_menu_mode false
              (Debounce.runEvents [.down 0 60 600] Debounce.menuFresh))) ∧
      Queue.webos_touch_get_menu_buttons
          (Queue.webos_touch_set_menu_mode true
            (Queue.webos_touch_set_menu_mode false
              (Queue.runEvents [.down 0 60 600] Queue.menuFresh))) =
        (0, Queue.webos_touch_set_menu_mode true
            (Queue.webos_touch_set_menu_mode false
              (Queue.runEvents [.down 0 60 600] Queue.menuFresh))) ∧
      SyncPoll.webos_touch_get_menu_buttons t
          (SyncPoll.webos_touch_set_menu_mode true
            (SyncPoll.webos_touch_set_menu_mode false
              (SyncPoll.runEvents [.down 0 60 600] SyncPoll.menuFresh))) =
        (0, SyncPoll.webos_touch_set_menu_mode true
            (SyncPoll.webos_touch_set_menu_mode false
              (SyncPoll.runEvents [.down 0 60 600] SyncPoll.menuFresh)))) := by
  refine ⟨?_, ?_, ?_, ?_, ?_, ?_⟩
  · intro fz cb ov ini m sw sh
    exact ⟨by simp [TapKey.webos_touch_set_menu_mode],
           by cases m <;> simp [TapKey.webos_touch_set_menu_mode]⟩
  · intro fz cb cmb lr wp ov ini m sw sh rsf
    exact ⟨by simp [Debounce.webos_touch_set_menu_mode],
           by cases m <;> simp [Debounce.webos_touch_set_menu_mode]⟩
  · intro fz cb eq qh qt pmb ov ini m sw sh rsf
    exact ⟨by simp [Queue.webos_touch_set_menu_mode],
           by cases m <;> simp [Queue.webos_touch_set_menu_mode, Queue.queue_clear]⟩
  · intro fz cb pend act au fp nr ov ini m sw sh rsf
    exact ⟨by simp [SyncPoll.webos_touch_set_menu_mode],
           by cases m <;> simp [SyncPoll.webos_touch_set_menu_mode]⟩
  · intro fz cb vmb pzp ov ini m sw sh rsf
    exact ⟨by simp [KeyInject.webos_touch_set_menu_mode],
           by cases m <;> simp [KeyInject.webos_touch_set_menu_mode]⟩
  · intro t
    refine ⟨debounce_poll_quiescent t _ (by decide) (by decide),
            queue_poll_empty _ (by decide),
            syncpoll_poll_quiescent t _ (by decide) (by decide)⟩

/-- Witness for C8: the first-match part applied to a concrete table where
the first zone misses (10,10) and the second contains it. -/
theorem c8_zone_hit_test_witness :
    zone_contains ⟨10, 10, 10, 10, 0, ""⟩ 10 10 = true ∧
    find_zone_list ([⟨0, 0, 5, 5, 0, ""⟩] ++ (⟨10, 10, 10, 10, 0, ""⟩ : touch_zone_t) :: []) 10 10
      = ((List.length [(⟨0, 0, 5, 5, 0, ""⟩ : touch_zone_t)] : Nat) : Int) :=
  ⟨by decide, c8_zone_hit_test.2.1 [⟨0, 0, 5, 5, 0, ""⟩] ⟨10, 10, 10, 10, 0, ""⟩ [] 10 10
    (by decide) (by decide)⟩


theorem syncpoll_poll_pending (t : Nat) (s : SyncPoll.State)
    (h : s.pending_buttons ≠ 0) :
    (SyncPoll.webos_touch_get_menu_buttons t s).1 = s.pending_buttons := by
  obtain ⟨fz, cb, pend, act, au, fp, nr, ov, ini, m, sw, sh, rsf⟩ := s
  dsimp only at h
  unfold SyncPoll.webos_touch_get_menu_buttons
  split <;> simp [h]

/-- C1 (amended): in the Queue and Sync-Poll variants, from a freshly
entered Menu mode a zero-duration tap of any navigation zone is returned
by the first subsequent poll of `webos_touch_get_menu_buttons` (at any
poll time); in the Debounce variant the tap is silently lost — the
post-tap state is a fixed point whose polls all return 0 — and the TapKey
and KeyInject variants always return 0 from the poll, delivering taps as
injected keyboard events instead. -/
theorem c1_zero_duration_tap :
    (∀ i : Fin 4,
      (Queue.webos_touch_get_menu_buttons
        (Queue.runEvents
          [.down 0 (Variants.menu_zone_corner i).1 (Variants.menu_zone_corner i).2, .btnup 0]
          Queue.menuFresh)).1 = Variants.menu_nav_bit i) ∧
    (∀ (i : Fin 4) (t : Nat),
      (SyncPoll.webos_touch_get_menu_buttons t
        (SyncPoll.runEvents
          [.down 0 (Variants.menu_zone_corner i).1 (Variants.menu_zone_corner i).2, .btnup 0]
          SyncPoll.menuFresh)).1 = Variants.menu_nav_bit i) ∧
    (∀ t : Nat,
      Debounce.webos_touch_get_menu_buttons t
          (Debounce.runEvents [.down 0 60 600, .btnup 0] Debounce.menuFresh) =
        (0, Debounce.runEvents [.down 0 60 600, .btnup 0] Debounce.menuFresh)) ∧
    (∀ s : TapKey.State, TapKey.webos_touch_get_menu_buttons s = 0) ∧
    (∀ s : KeyInject.State, KeyInject.webos_touch_get_menu_buttons s = 0) := by
  refine ⟨by decide, ?_, ?_, fun s => rfl, fun s => rfl⟩
  · intro i t
    have hnz : (SyncPoll.runEvents
        [.down 0 (Variants.menu_zone_corner i).1 (Variants.menu_zone_corner i).2, .btnup 0]
        SyncPoll.menuFresh).pending_buttons ≠ 0 := by
      fin_cases i <;> decide
    have hp : (SyncPoll.runEvents
        [.down 0 (Variants.menu_zone_corner i).1 (Variants.menu_zone_corner i).2, .btnup 0]
        SyncPoll.menuFresh).pending_buttons = Variants.menu_nav_bit i := by
      fin_cases i <;> decide
    rw [syncpoll_poll_pending t _ hnz, hp]
  · intro t
    exact debounce_poll_quiescent t _ (by decide) (by decide)

/-- C1 counterexample: in the Debounce variant a zero-duration tap of the
UP menu zone, with polls only after the tap, is never reported: the poll
returns 0 and leaves the post-tap state exactly unchanged (so every
further poll also returns 0) — the claim's "for every policy variant"
fails. -/
theorem c1_counterexample_debounce_tap_lost :
    Debounce.webos_touch_get_menu_buttons 1000
        (Debounce.runEvents [.down 0 60 600, .btnup 0] Debounce.menuFresh) =
      (0, Debounce.runEvents [.down 0 60 600, .btnup 0] Debounce.menuFresh) := by
  decide

set_option maxRecDepth 40000 in
/-- C2 (amended): the Queue variant's circular buffer has 16 slots but
holds at most 15 events (the full test sacrifices one slot): fifteen press
edges enqueued without any intervening poll are all retrievable in FIFO
order, and a press edge arriving while the queue is full is silently
dropped (the newest event is discarded), leaving the queue unchanged. -/
theorem c2_queue_capacity :
    ((Queue.popN 15 (Queue.runEvents (Queue.upTaps 15) Queue.menuFresh)).1 =
      List.replicate 15 PBTN_UP) ∧
    (∀ (b : Nat) (s : Queue.State), Queue.queue_is_full s = true → Queue.queue_push b s = s) := by
  constructor
  · decide
  · intro b s h
    simp [Queue.queue_push, h]

set_option maxRecDepth 40000 in
/-- Witness for C2: the queue after 15 un-polled taps is full, and pushing
into it changes nothing. -/
theorem c2_queue_capacity_witness :
    Queue.queue_is_full (Queue.runEvents (Queue.upTaps 15) Queue.menuFresh) = true ∧
    Queue.queue_push PBTN_UP (Queue.runEvents (Queue.upTaps 15) Queue.menuFresh) =
      Queue.runEvents (Queue.upTaps 15) Queue.menuFresh :=
  ⟨by decide,
   c2_queue_capacity.2 PBTN_UP (Queue.runEvents (Queue.upTaps 15) Queue.menuFresh) (by decide)⟩

set_option maxRecDepth 40000 in
/-- C2 counterexample: sixteen press edges enqueued without any
intervening poll are NOT all retrievable — the sixteenth pop returns 0,
the sixteenth press edge having been dropped on arrival. -/
theorem c2_counterexample_sixteen_taps :
    (Queue.popN 16 (Queue.runEvents (Queue.upTaps 16) Queue.menuFresh)).1 =
      List.replicate 15 PBTN_UP ++ [0] := by
  decide

/-- C3 (amended): on each Sync-Poll poll, pending bits always take effect
immediately: if pending is nonempty it is promoted to active for 120 ms,
cleared, and returned — even when the previously active bits have not yet
expired (they are discarded early); only with no pending bits does the
poll return the active bits, first clearing them when `now >=
active_until` (returning 0 then). -/
theorem c3_syncpoll_poll_spec (now : Nat) (s : SyncPoll.State) :
    SyncPoll.webos_touch_get_menu_buttons now s =
      if s.pending_buttons ≠ 0 then
        (s.pending_buttons,
         {s with active_buttons := s.pending_buttons,
                 active_until := now + ACTIVE_DURATION_MS,
                 pending_buttons := 0})
      else if s.active_buttons ≠ 0 ∧ s.active_until ≤ now then
        (0, {s with active_buttons := 0})
      else (s.active_buttons, s) := by
  obtain ⟨fz, cb, pend, act, au, fp, nr, ov, ini, m, sw, sh, rsf⟩ := s
  unfold SyncPoll.webos_touch_get_menu_buttons
  by_cases hp : pend = 0 <;> by_cases ha : act ≠ 0 ∧ au ≤ now <;> simp [hp, ha]

/-- C3 counterexample: reachable state with active = UP unexpired
(1050 < 1120) and pending = DOWN; the poll at 1050 returns DOWN, not the
unexpired active UP the claim prescribes. -/
theorem c3_counterexample_pending_preempts_active :
    (SyncPoll.run [.ev (.down 0 60 600), .poll 1000, .ev (.btnup 0), .ev (.down 0 200 600)]
        SyncPoll.menuFresh).2.active_buttons = PBTN_UP ∧
    (SyncPoll.run [.ev (.down 0 60 600), .poll 1000, .ev (.btnup 0), .ev (.down 0 200 600)]
        SyncPoll.menuFresh).2.active_until = 1120 ∧
    (SyncPoll.run [.ev (.down 0 60 600), .poll 1000, .ev (.btnup 0), .ev (.down 0 200 600)]
        SyncPoll.menuFresh).2.pending_buttons = PBTN_DOWN ∧
    (SyncPoll.webos_touch_get_menu_buttons 1050
      (SyncPoll.run [.ev (.down 0 60 600), .poll 1000, .ev (.btnup 0), .ev (.down 0 200 600)]
        SyncPoll.menuFresh).2).1 = PBTN_DOWN ∧
    (1050 : Nat) < 1120 ∧ PBTN_DOWN ≠ PBTN_UP := by
  decide

/-- C5: in the Queue variant, pressing one navigation button and then a
different one as separate press edges before any poll yields the first
button's bit on the first poll, the second button's bit on the second
poll, and 0 on the third. -/
theorem c5_queue_fifo_order (i j : Fin 4) (hij : i ≠ j) :
    (Queue.run
      [.ev (.down 0 (Variants.menu_zone_corner i).1 (Variants.menu_zone_corner i).2),
       .ev (.down 1 (Variants.menu_zone_corner j).1 (Variants.menu_zone_corner j).2),
       .poll 0, .poll 0, .poll 0] Queue.menuFresh).1 =
      [Variants.menu_nav_bit i, Variants.menu_nav_bit j, 0] := by
  revert hij
  fin_cases i <;> fin_cases j <;> decide

/-- Witness for C5: button A = UP (zone 0), button B = DOWN (zone 1). -/
theorem c5_queue_fifo_order_witness :
    (0 : Fin 4) ≠ (1 : Fin 4) ∧
    (Queue.run
      [.ev (.down 0 (Variants.menu_zone_corner 0).1 (Variants.menu_zone_corner 0).2),
       .ev (.down 1 (Variants.menu_zone_corner 1).1 (Variants.menu_zone_corner 1).2),
       .poll 0, .poll 0, .poll 0] Queue.menuFresh).1 =
      [Variants.menu_nav_bit 0, Variants.menu_nav_bit 1, 0] :=
  ⟨by decide, c5_queue_fifo_order 0 1 (by decide)⟩

set_option maxHeartbeats 1000000 in
/-- C4: a Debounce poll returns a button's bit exactly when that button
is pressed now but was not pressed at the previous poll (the recorded
was-pressed flag) AND at least 250 ms have elapsed (in Uint32 arithmetic)
since the timestamp at which that button's bit was last returned;
consequently two presses of the same button 100 ms apart yield exactly one
reported edge and two presses 300 ms apart yield two, with polls
observing each press and release. -/
theorem c4_debounce_poll :
    (∀ (now : Nat) (fz : List Int) (cb cmb : Nat) (l0 l1 l2 l3 : Nat)
        (w0 w1 w2 w3 : Bool) (ov ini m : Bool) (sw sh : Int) (rsf : Nat),
      (Debounce.webos_touch_get_menu_buttons now
          ⟨fz, cb, cmb, [l0, l1, l2, l3], [w0, w1, w2, w3], ov, ini, m, sw, sh, rsf⟩).1 =
        ((if ((cmb &&& PBTN_UP) ≠ 0 ∧ w0 = false) ∧ DEBOUNCE_MS ≤ sub32 now l0
            then PBTN_UP else 0) |||
         (if ((cmb &&& PBTN_DOWN) ≠ 0 ∧ w1 = false) ∧ DEBOUNCE_MS ≤ sub32 now l1
            then PBTN_DOWN else 0) |||
         (if ((cmb &&& PBTN_MBACK) ≠ 0 ∧ w2 = false) ∧ DEBOUNCE_MS ≤ sub32 now l2
            then PBTN_MBACK else 0) |||
         (if ((cmb &&& PBTN_MOK) ≠ 0 ∧ w3 = false) ∧ DEBOUNCE_MS ≤ sub32 now l3
            then PBTN_MOK else 0))) ∧
    ((Debounce.run [.ev (.down 0 60 600), .poll 1000, .ev (.btnup 0), .poll 1010,
        .ev (.down 0 60 600), .poll 1100] Debounce.menuFresh).1 = [PBTN_UP, 0, 0]) ∧
    ((Debounce.run [.ev (.down 0 60 600), .poll 1000, .ev (.btnup 0), .poll 1010,
        .ev (.down 0 60 600), .poll 1300] Debounce.menuFresh).1 = [PBTN_UP, 0, PBTN_UP]) := by
  refine ⟨?_, by decide, by decide⟩
  intro now fz cb cmb l0 l1 l2 l3 w0 w1 w2 w3 ov ini m sw sh rsf
  simp only [Debounce.webos_touch_get_menu_buttons, Debounce.button_bits,
    List.foldl_cons, List.foldl_nil, List.getD_cons_zero, List.getD_cons_succ,
    List.set_cons_zero, List.set_cons_succ]
  by_cases h0 : (cmb &&& PBTN_UP) ≠ 0 ∧ w0 = false <;>
    by_cases h1 : DEBOUNCE_MS ≤ sub32 now l0 <;>
    by_cases h2 : (cmb &&& PBTN_DOWN) ≠ 0 ∧ w1 = false <;>
    by_cases h3 : DEBOUNCE_MS ≤ sub32 now l1 <;>
    by_cases h4 : (cmb &&& PBTN_MBACK) ≠ 0 ∧ w2 = false <;>
    by_cases h5 : DEBOUNCE_MS ≤ sub32 now l2 <;>
    by_cases h6 : (cmb &&& PBTN_MOK) ≠ 0 ∧ w3 = false <;>
    by_cases h7 : DEBOUNCE_MS ≤ sub32 now l3 <;>
    simp [h0, h1, h2, h3, h4, h5, h6, h7]
